import Mathlib

/-!
Verification of the bladeRF sink block (`bladerf_sink_c.cc` of gr-osmosdr):
a shallow embedding of the burst/tag state machine (`transmit_with_tags`),
the work-call failure policy (`work`), the multi-channel interleaving step,
and the `start`/`stop` lifecycle, together with theorems checking the
documented behaviour against the embedding.

Modelling conventions:
* Hardware calls (`bladerf_sync_tx`, `bladerf_sync_config`,
  `bladerf_enable_module`) are external; their return statuses are supplied
  as explicit oracle arguments (a list of `Int` statuses consumed in call
  order), and every issued transmit call is recorded in an ordered log.
* The C local `int status;` in `transmit_with_tags` is declared without an
  initializer; we model its value as `Option Int`, `none` standing for the
  indeterminate value of the uninitialized variable.
* The three metadata bits actually touched by the code
  (`BLADERF_META_FLAG_TX_NOW`, `..._TX_BURST_START`, `..._TX_BURST_END`)
  are modelled as a record of three booleans.
-/

namespace BladerfSink

/-- The libbladeRF code `BLADERF_ERR_INVAL` (value `-3`; what matters for
the spec is that it is the distinguished nonzero "invalid state" code). -/
def BLADERF_ERR_INVAL : Int := -3

/-- The GNU Radio `WORK_DONE` return value of a block (`-1`). -/
def WORK_DONE : Int := -1

/-- Sentinel for an unset start index (`INVALID_IDX` in the source). -/
def INVALID_IDX : Int := -1

/-- The three `bladerf_metadata` flag bits the sink manipulates. -/
structure MetaFlags where
  txNow : Bool
  burstStart : Bool
  burstEnd : Bool
deriving Repr, DecidableEq

/-- Zeroed flags, as after `memset(&meta, 0, sizeof(meta))` or
`meta.flags = 0`. -/
def MetaFlags.zero : MetaFlags := ⟨false, false, false⟩

/-- One recorded call to `bladerf_sync_tx`.  `start` is the sample index
into the work buffer (`&samples[2 * start]`), `count` the sample count,
`flags` the metadata flags passed, `zeros` whether the static `zeros[]`
buffer was used instead of the work buffer. -/
structure Transfer where
  start : Int
  count : Int
  flags : MetaFlags
  zeros : Bool
deriving Repr, DecidableEq

/-- A stream tag: symbolic key plus absolute stream offset
(`tag.offset`, relative index is `offset - nitems_read(0)`). -/
structure Tag where
  key : String
  offset : Nat
deriving Repr, DecidableEq

/-- The mutable state of one `transmit_with_tags` invocation: the local
variables `start_idx`, `end_idx`, `meta.flags`, `status`, the persistent
member `_in_burst`, the oracle of pending hardware statuses, and the log
of transfers issued so far. -/
structure LoopState where
  start_idx : Int
  end_idx : Int
  flags : MetaFlags
  in_burst : Bool
  status : Option Int
  txResults : List Int
  transfers : List Transfer
deriving Repr, DecidableEq

/-- Issue one `bladerf_sync_tx`: consume the next oracle status (default
`0` when the oracle is exhausted) and append the transfer to the log. -/
def doTx (st : LoopState) (t : Transfer) : Int × LoopState :=
  (st.txResults.headD 0,
   { st with txResults := st.txResults.tail, transfers := st.transfers ++ [t] })

/-- Process one tag of the `BOOST_FOREACH` loop.  `Except.error (code, s)`
models an early `return code;` with the state at that point; `Except.ok s`
continues the loop. -/
def processTag (nr : Nat) (N : Int) (st : LoopState) (tag : Tag) :
    Except (Int × LoopState) LoopState :=
  if tag.key = "tx_sob" then
    if st.in_burst then
      Except.error (BLADERF_ERR_INVAL, st)
    else
      Except.ok { st with
        start_idx := (tag.offset : Int) - (nr : Int),
        flags := { st.flags with txNow := true, burstStart := true },
        in_burst := true }
  else if tag.key = "tx_eob" then
    if !st.in_burst then
      Except.error (BLADERF_ERR_INVAL, st)
    else
      let e : Int := (tag.offset : Int) - (nr : Int)
      let st1 := { st with end_idx := e }
      if st1.start_idx = INVALID_IDX ∨ st1.start_idx > e then
        Except.error (BLADERF_ERR_INVAL, st1)
      else
        let count := e - st1.start_idx + 1
        let (s1, st2) := doTx st1 ⟨st1.start_idx, count, st1.flags, false⟩
        if s1 ≠ 0 then
          Except.error (s1, { st2 with status := some s1 })
        else
          let flags2 := { st2.flags with txNow := false, burstStart := false,
                                         burstEnd := true }
          let (s2, st3) := doTx { st2 with status := some s1, flags := flags2 }
                                ⟨0, 4, flags2, true⟩
          let st4 := { st3 with start_idx := INVALID_IDX, end_idx := N - 1,
                                flags := MetaFlags.zero, in_burst := false,
                                status := some s2 }
          if s2 ≠ 0 then Except.error (s2, st4) else Except.ok st4
  else
    Except.ok st

/-- The tag loop of `transmit_with_tags`. -/
def processTags (nr : Nat) (N : Int) (st : LoopState) :
    List Tag → Except (Int × LoopState) LoopState
  | [] => Except.ok st
  | t :: ts =>
    match processTag nr N st t with
    | Except.error e => Except.error e
    | Except.ok st' => processTags nr N st' ts

/-- Result of a `transmit_with_tags` call: the returned status (`none`
when the function returns the uninitialized local `status`), and the
final `LoopState` (whose `in_burst` is the persistent member afterwards
and whose `transfers` is the ordered log of hardware calls). -/
structure TWTResult where
  status : Option Int
  state : LoopState
deriving Repr, DecidableEq

/-- Initial loop state of an invocation: `start_idx = 0`,
`end_idx = noutput_items - 1`, zeroed metadata, uninitialized `status`. -/
def initState (in_burst0 : Bool) (N : Int) (txr : List Int) : LoopState :=
  { start_idx := 0, end_idx := N - 1, flags := MetaFlags.zero,
    in_burst := in_burst0, status := none, txResults := txr, transfers := [] }

/-- Shallow embedding of `bladerf_sink_c::transmit_with_tags`.
`in_burst0` is `_in_burst` on entry, `nr` is `nitems_read(0)`, `N` is
`noutput_items`, `tags` the window tags in delivery order, `txr` the
oracle of hardware statuses. -/
def transmit_with_tags (in_burst0 : Bool) (nr : Nat) (N : Int)
    (tags : List Tag) (txr : List Int) : TWTResult :=
  let st0 := initState in_burst0 N txr
  if tags.length = 0 then
    if in_burst0 then
      let (s, st1) := doTx st0 ⟨0, N, MetaFlags.zero, false⟩
      { status := some s, state := st1 }
    else
      -- warning "Dropping ... samples not in a burst", then falls through
      -- an empty loop and the false `if (_in_burst)` to `return status;`
      -- with `status` never assigned.
      { status := none, state := st0 }
  else
    match processTags nr N st0 tags with
    | Except.error (code, st') => { status := some code, state := st' }
    | Except.ok st' =>
      if st'.in_burst then
        let (s, stb) := doTx st'
          ⟨st'.start_idx, st'.end_idx - st'.start_idx + 1, st'.flags, false⟩
        { status := some s, state := stb }
      else
        { status := st'.status, state := st' }

/-! ## The `work` call: conversion pipeline and failure policy -/

/-- The interleaving copy loop of `work` (the `nstreams > 1` branch):
`for i < noutput_items/nstreams: for n < nstreams: *intl_out++ = in[n][i]`.
`inp n i` is channel `n`'s `i`-th complex sample. -/
def interleave {α : Type} (nstreams noutput_items : Nat)
    (inp : Nat → Nat → α) : List α :=
  (List.range (noutput_items / nstreams)).flatMap fun i =>
    (List.range nstreams).map fun n => inp n i

/-- The float buffer `_32fcbuf` handed to `volk_32f_s32f_convert_16i`:
interleaved when `nstreams > 1`, a plain copy of channel 0 otherwise. -/
def prepareBuffer {α : Type} (nstreams noutput_items : Nat)
    (inp : Nat → Nat → α) : List α :=
  if nstreams > 1 then
    interleave nstreams noutput_items inp
  else
    (List.range noutput_items).map (inp 0)

/-- Persistent block state touched by `work`'s failure policy. -/
structure WorkState where
  running : Bool
  failures : Nat
deriving Repr, DecidableEq

/-- The tail of `bladerf_sink_c::work`: given the status of the transmit
step (`transmit_with_tags` or plain `bladerf_sync_tx`), update `_failures`
and produce the return value.  Returns `0` immediately when not running
(before any transmit). -/
def work_step (MAX_CONSECUTIVE_FAILURES : Nat) (st : WorkState)
    (noutput_items : Int) (status : Int) : Int × WorkState :=
  if !st.running then
    (0, st)
  else if status ≠ 0 then
    let f := st.failures + 1
    if f ≥ MAX_CONSECUTIVE_FAILURES then
      (WORK_DONE, { st with failures := f })
    else
      (noutput_items, { st with failures := f })
  else
    (noutput_items, { st with failures := 0 })

/-- A sequence of `work` invocations, each with the transmit status given
by the corresponding entry of `statuses`; returns the list of `work`
return values and the final state. -/
def work_run (MAX : Nat) (noutput_items : Int) :
    WorkState → List Int → List Int × WorkState
  | st, [] => ([], st)
  | st, s :: rest =>
    let (r, st') := work_step MAX st noutput_items s
    let (rs, stb) := work_run MAX noutput_items st' rest
    (r :: rs, stb)

/-! ## `start` / `stop` lifecycle -/

/-- Persistent members touched by `start`/`stop`: `_in_burst`, `_running`
and whether the conversion scratch buffers are currently allocated
(`_16icbuf`/`_32fcbuf` non-null). -/
structure SinkState where
  in_burst : Bool
  running : Bool
  buffers : Bool
deriving Repr, DecidableEq

/-- The `for ch < get_max_channels: bladerf_enable_module` loop of
`start`/`stop`; each status is checked and a nonzero one throws
(`Except.error`). -/
def enableModules : List Int → Except Int Unit
  | [] => Except.ok ()
  | s :: rest => if s ≠ 0 then Except.error s else enableModules rest

/-- Shallow embedding of `bladerf_sink_c::start`.
`configStatus` is the oracle result of
`bladerf_sync_config`, `enableStatuses` those of the per-channel
`bladerf_enable_module` calls.  A thrown status carries the object state
at the throw point (note `_in_burst = false` is assigned first). -/
def start (configStatus : Int) (enableStatuses : List Int)
    (st : SinkState) : Except (Int × SinkState) (Bool × SinkState) :=
  let st1 := { st with in_burst := false }
  if configStatus ≠ 0 then
    Except.error (configStatus, st1)
  else
    match enableModules enableStatuses with
    | Except.error s => Except.error (s, st1)
    | Except.ok _ =>
      Except.ok (true, { st1 with buffers := true, running := true })

/-- Shallow embedding of `bladerf_sink_c::stop`.
Already-stopped instances return `true`
without touching channels or buffers; otherwise `_running` is cleared,
channels are disabled (a nonzero status throws) and the scratch buffers
are freed. -/
def stop (enableStatuses : List Int) (st : SinkState) :
    Except (Int × SinkState) (Bool × SinkState) :=
  if !st.running then
    Except.ok (true, st)
  else
    let st1 := { st with running := false }
    match enableModules enableStatuses with
    | Except.error s => Except.error (s, st1)
    | Except.ok _ => Except.ok (true, { st1 with buffers := false })

/-! ## Helper lemmas -/

/-- A tag key the `BOOST_FOREACH` loop reacts to. -/
def recognized (t : Tag) : Prop := t.key = "tx_sob" ∨ t.key = "tx_eob"

instance (t : Tag) : Decidable (recognized t) := by
  unfold recognized; infer_instance

lemma processTag_unrecognized (nr : Nat) (N : Int) (st : LoopState) (t : Tag)
    (h : ¬ recognized t) : processTag nr N st t = Except.ok st := by
  unfold recognized at h
  push_neg at h
  simp [processTag, h.1, h.2]

lemma processTags_unrecognized (nr : Nat) (N : Int) (st : LoopState)
    (ts : List Tag) (h : ∀ t ∈ ts, ¬ recognized t) :
    processTags nr N st ts = Except.ok st := by
  induction ts with
  | nil => rfl
  | cons t ts ih =>
    rw [processTags, processTag_unrecognized nr N st t (h t (by simp))]
    exact ih fun t ht => h t (by simp [ht])

lemma processTags_append (nr : Nat) (N : Int) (st : LoopState)
    (l1 l2 : List Tag) :
    processTags nr N st (l1 ++ l2) =
      match processTags nr N st l1 with
      | Except.error e => Except.error e
      | Except.ok st1 => processTags nr N st1 l2 := by
  induction l1 generalizing st with
  | nil => simp [processTags]
  | cons t ts ih =>
    rw [List.cons_append, processTags, processTags]
    cases processTag nr N st t with
    | error e => rfl
    | ok st1 => exact ih st1

lemma processTags_cons_ok (nr : Nat) (N : Int) (st s1 : LoopState)
    (t : Tag) (ts : List Tag) (h : processTag nr N st t = Except.ok s1) :
    processTags nr N st (t :: ts) = processTags nr N s1 ts := by
  rw [processTags, h]

lemma processTags_cons_err (nr : Nat) (N : Int) (st : LoopState)
    (t : Tag) (ts : List Tag) (e : Int × LoopState)
    (h : processTag nr N st t = Except.error e) :
    processTags nr N st (t :: ts) = Except.error e := by
  rw [processTags, h]

lemma processTags_append_ok (nr : Nat) (N : Int) (st s1 : LoopState)
    (l1 l2 : List Tag) (h : processTags nr N st l1 = Except.ok s1) :
    processTags nr N st (l1 ++ l2) = processTags nr N s1 l2 := by
  rw [processTags_append, h]

/-! ## Claims about `transmit_with_tags` -/

/-- C1 (code evaluation): a batch with zero tags while `in_burst == false`
is dropped — no transfer is issued and `in_burst` stays false — but the
function reaches `return status;` with the local `status` never assigned,
so the returned value is the indeterminate content of an uninitialized
variable (modelled `none`), not the success code `0` the spec claims. -/
theorem C1_no_tags_not_in_burst (nr : Nat) (N : Int) (txr : List Int) :
    (transmit_with_tags false nr N [] txr).status = none ∧
    (transmit_with_tags false nr N [] txr).state.transfers = [] ∧
    (transmit_with_tags false nr N [] txr).state.in_burst = false := by
  refine ⟨rfl, rfl, rfl⟩

/-- C6: a batch with zero tags while `in_burst == true` issues exactly one
transfer covering the whole batch with zeroed metadata flags, and returns
that transfer's status. -/
theorem C6_no_tags_in_burst (nr : Nat) (N : Int) (r : Int)
    (txrest : List Int) :
    (transmit_with_tags true nr N [] (r :: txrest)).status = some r ∧
    (transmit_with_tags true nr N [] (r :: txrest)).state.transfers =
      [⟨0, N, MetaFlags.zero, false⟩] ∧
    (transmit_with_tags true nr N [] (r :: txrest)).state.in_burst = true := by
  refine ⟨rfl, rfl, rfl⟩

/-- C3: a batch of 32 samples carrying a burst-start at relative offset 5
and a burst-end at relative offset 20, entered with `in_burst == false`
and with all hardware transfers succeeding, issues exactly two transfers:
16 samples starting at index 5 with the start-now and burst-start flags,
then the 4-sample zero flush with only the burst-end flag; `in_burst` is
false afterwards. -/
theorem C3_sob_eob_two_transfers (nr : Nat) (txrest : List Int) :
    (transmit_with_tags false nr 32
      [⟨"tx_sob", nr + 5⟩, ⟨"tx_eob", nr + 20⟩]
      (0 :: 0 :: txrest)).state.transfers =
        [⟨5, 16, ⟨true, true, false⟩, false⟩,
         ⟨0, 4, ⟨false, false, true⟩, true⟩] ∧
    (transmit_with_tags false nr 32
      [⟨"tx_sob", nr + 5⟩, ⟨"tx_eob", nr + 20⟩]
      (0 :: 0 :: txrest)).state.in_burst = false ∧
    (transmit_with_tags false nr 32
      [⟨"tx_sob", nr + 5⟩, ⟨"tx_eob", nr + 20⟩]
      (0 :: 0 :: txrest)).status = some 0 := by
  have h5 : ((nr + 5 : Nat) : Int) - (nr : Int) = 5 := by push_cast; ring
  have h20 : ((nr + 20 : Nat) : Int) - (nr : Int) = 20 := by push_cast; ring
  simp [transmit_with_tags, initState, processTags, processTag, doTx,
        h5, h20, INVALID_IDX, MetaFlags.zero]

/-- C5: a batch of `N` samples whose only recognized tag is a burst-start
at relative offset `k` (any other tags unrecognized), entered with
`in_burst == false`, issues exactly one transfer spanning indices
`[k..N-1]` (count `N - k`) with the start-now and burst-start flags, and
`in_burst` remains true afterwards. -/
theorem C5_sob_only (nr : Nat) (N : Int) (k : Nat) (pre post : List Tag)
    (txr : List Int) (hk : (k : Int) < N)
    (hpre : ∀ t ∈ pre, ¬ recognized t)
    (hpost : ∀ t ∈ post, ¬ recognized t) :
    (transmit_with_tags false nr N
      (pre ++ (⟨"tx_sob", nr + k⟩ : Tag) :: post) txr).state.transfers =
        [⟨(k : Int), N - (k : Int), ⟨true, true, false⟩, false⟩] ∧
    (transmit_with_tags false nr N
      (pre ++ (⟨"tx_sob", nr + k⟩ : Tag) :: post) txr).state.in_burst =
        true := by
  have hkc : ((nr + k : Nat) : Int) - (nr : Int) = (k : Int) := by
    push_cast; ring
  have hsob : processTag nr N (initState false N txr) ⟨"tx_sob", nr + k⟩ =
      Except.ok { initState false N txr with
                    start_idx := (k : Int),
                    flags := ⟨true, true, false⟩, in_burst := true } := by
    simp [processTag, initState, hkc, MetaFlags.zero]
  have hall : processTags nr N (initState false N txr)
      (pre ++ (⟨"tx_sob", nr + k⟩ : Tag) :: post) =
      Except.ok { initState false N txr with
                    start_idx := (k : Int),
                    flags := ⟨true, true, false⟩, in_burst := true } := by
    rw [processTags_append_ok nr N _ _ pre _
          (processTags_unrecognized nr N _ pre hpre),
        processTags_cons_ok nr N _ _ _ post hsob]
    exact processTags_unrecognized nr N _ post hpost
  have hcount : N - 1 - (k : Int) + 1 = N - (k : Int) := by ring
  simp only [initState] at hall
  simp [transmit_with_tags, hall, initState, doTx, hcount]

/-- Condition under which the tag loop hits one of the three protocol
errors at tag `b`: a burst-start while already in a burst, a burst-end
while not in a burst, or a burst-end whose recorded start index is unset
(`INVALID_IDX`) or greater than the computed end index. -/
def tagErrCond (nr : Nat) (s : LoopState) (b : Tag) : Prop :=
  (b.key = "tx_sob" ∧ s.in_burst = true) ∨
  (b.key = "tx_eob" ∧ s.in_burst = false) ∨
  (b.key = "tx_eob" ∧ s.in_burst = true ∧
    (s.start_idx = INVALID_IDX ∨ s.start_idx > (b.offset : Int) - (nr : Int)))

instance (nr : Nat) (s : LoopState) (b : Tag) : Decidable (tagErrCond nr s b) := by
  unfold tagErrCond; infer_instance

lemma processTag_err (nr : Nat) (N : Int) (s : LoopState) (b : Tag)
    (h : tagErrCond nr s b) :
    ∃ s1, processTag nr N s b = Except.error (BLADERF_ERR_INVAL, s1) ∧
      s1.transfers = s.transfers ∧ s1.in_burst = s.in_burst ∧
      s1.start_idx = s.start_idx ∧ s1.flags = s.flags := by
  rcases h with ⟨hkey, hib⟩ | ⟨hkey, hib⟩ | ⟨hkey, hib, hidx⟩
  · exact ⟨s, by simp [processTag, hkey, hib], rfl, rfl, rfl, rfl⟩
  · exact ⟨s, by simp [processTag, hkey, hib], rfl, rfl, rfl, rfl⟩
  · refine ⟨{ s with end_idx := (b.offset : Int) - (nr : Int) },
      ?_, rfl, rfl, rfl, rfl⟩
    simp [processTag, hkey, hib, hidx]

/-- C4: whenever the tag loop reaches a tag triggering one of the three
protocol errors (overlapping burst-start, end-without-start, malformed
index ordering), `transmit_with_tags` returns the invalid-state error
code immediately: the remaining tags are not processed (the result does
not depend on `rest`), no transfer is issued for the offending tag, and
no burst-state cleanup happens (`in_burst`, `start_idx` and the metadata
flags keep the values they had before the offending tag). -/
theorem C4_protocol_errors (in0 : Bool) (nr : Nat) (N : Int)
    (txr : List Int) (pre rest : List Tag) (bad : Tag) (s : LoopState)
    (hpre : processTags nr N (initState in0 N txr) pre = Except.ok s)
    (hbad : tagErrCond nr s bad) :
    (transmit_with_tags in0 nr N (pre ++ bad :: rest) txr).status =
        some BLADERF_ERR_INVAL ∧
    (transmit_with_tags in0 nr N (pre ++ bad :: rest) txr).state.transfers =
        s.transfers ∧
    (transmit_with_tags in0 nr N (pre ++ bad :: rest) txr).state.in_burst =
        s.in_burst ∧
    (transmit_with_tags in0 nr N (pre ++ bad :: rest) txr).state.start_idx =
        s.start_idx ∧
    (transmit_with_tags in0 nr N (pre ++ bad :: rest) txr).state.flags =
        s.flags := by
  obtain ⟨s1, herr, ht, hb, hs, hf⟩ := processTag_err nr N s bad hbad
  have hall : processTags nr N (initState in0 N txr) (pre ++ bad :: rest) =
      Except.error (BLADERF_ERR_INVAL, s1) := by
    rw [processTags_append_ok nr N _ _ pre _ hpre,
        processTags_cons_err nr N _ _ rest _ herr]
  simp [transmit_with_tags, hall, ht, hb, hs, hf]

/-- Witness for C4 at a concrete input: a second burst-start arriving
while `in_burst == true` makes the call return `BLADERF_ERR_INVAL` with
no transfer issued and the burst state untouched. -/
theorem C4_protocol_errors_witness :
    (transmit_with_tags true 0 8 ([] ++ (⟨"tx_sob", 3⟩ : Tag) :: []) []).status =
        some BLADERF_ERR_INVAL ∧
    (transmit_with_tags true 0 8 ([] ++ (⟨"tx_sob", 3⟩ : Tag) :: []) []).state.transfers =
        (initState true 8 []).transfers ∧
    (transmit_with_tags true 0 8 ([] ++ (⟨"tx_sob", 3⟩ : Tag) :: []) []).state.in_burst =
        (initState true 8 []).in_burst ∧
    (transmit_with_tags true 0 8 ([] ++ (⟨"tx_sob", 3⟩ : Tag) :: []) []).state.start_idx =
        (initState true 8 []).start_idx ∧
    (transmit_with_tags true 0 8 ([] ++ (⟨"tx_sob", 3⟩ : Tag) :: []) []).state.flags =
        (initState true 8 []).flags :=
  C4_protocol_errors true 0 8 [] [] [] ⟨"tx_sob", 3⟩ (initState true 8 [])
    rfl (by decide)

/-- Witness for C5 at a concrete input: batch of 32 samples, one
unrecognized tag followed by a burst-start at relative offset 10. -/
theorem C5_sob_only_witness :
    (transmit_with_tags false 0 32
      ([⟨"other", 2⟩] ++ (⟨"tx_sob", 0 + 10⟩ : Tag) :: []) []).state.transfers =
        [⟨(10 : Int), 32 - (10 : Int), ⟨true, true, false⟩, false⟩] ∧
    (transmit_with_tags false 0 32
      ([⟨"other", 2⟩] ++ (⟨"tx_sob", 0 + 10⟩ : Tag) :: []) []).state.in_burst =
        true :=
  C5_sob_only 0 32 10 [⟨"other", 2⟩] [] [] (by norm_num)
    (by decide) (by decide)

/-- C10: at a burst-end tag the two sub-transfer failure paths leave
different state even though both return the raw status.  If the main
data transfer fails, the error is returned with `in_burst` still true,
`start_idx` unreset and the metadata flags untouched; if that transfer
succeeds and the zero-sample flush fails, `in_burst` is cleared, the
indices and flags are reset, and only then is the error returned. -/
theorem C10_eob_failure_paths (nr : Nat) (N : Int) (s : LoopState)
    (off : Nat) (r1 r2 : Int) (rest : List Int)
    (hib : s.in_burst = true)
    (htx : s.txResults = r1 :: r2 :: rest)
    (hset : s.start_idx ≠ INVALID_IDX)
    (hord : s.start_idx ≤ (off : Int) - (nr : Int)) :
    (r1 ≠ 0 →
      processTag nr N s ⟨"tx_eob", off⟩ =
        Except.error (r1,
          { s with end_idx := (off : Int) - (nr : Int),
                   status := some r1,
                   txResults := r2 :: rest,
                   transfers := s.transfers ++
                     [⟨s.start_idx,
                       (off : Int) - (nr : Int) - s.start_idx + 1,
                       s.flags, false⟩] })) ∧
    (r1 = 0 → r2 ≠ 0 →
      processTag nr N s ⟨"tx_eob", off⟩ =
        Except.error (r2,
          { s with start_idx := INVALID_IDX, end_idx := N - 1,
                   flags := MetaFlags.zero, in_burst := false,
                   status := some r2, txResults := rest,
                   transfers := s.transfers ++
                     [⟨s.start_idx,
                       (off : Int) - (nr : Int) - s.start_idx + 1,
                       s.flags, false⟩,
                      ⟨0, 4, ⟨false, false, true⟩, true⟩] })) := by
  have hgt : ¬ ((off : Int) - (nr : Int) < s.start_idx) := not_lt.mpr hord
  constructor
  · intro h1
    simp [processTag, hib, hset, hgt, doTx, htx, h1]
  · intro h1 h2
    simp [processTag, hib, hset, hgt, doTx, htx, h1, h2]

/-- Witness for C10 at a concrete input: burst from index 2, burst-end at
relative offset 6, main data transfer failing with status 9. -/
theorem C10_eob_failure_paths_witness :
    processTag 0 8
      ⟨2, 7, ⟨true, true, false⟩, true, none, [9, 5], []⟩
      ⟨"tx_eob", 6⟩ =
      Except.error (9,
        ⟨2, 6, ⟨true, true, false⟩, true, some 9, [5],
         [⟨2, 5, ⟨true, true, false⟩, false⟩]⟩) :=
  (C10_eob_failure_paths 0 8
      ⟨2, 7, ⟨true, true, false⟩, true, none, [9, 5], []⟩
      6 9 5 [] rfl rfl (by decide) (by decide)).1 (by decide)

/-! ## Claims about the `work` failure policy -/

lemma work_run_consecutive_failures (MAX : Nat) (N s : Int) (hs : s ≠ 0) :
    ∀ m f, f + m + 1 = MAX →
    (work_run MAX N ⟨true, f⟩ (List.replicate (m + 1) s)).fst =
      List.replicate m N ++ [WORK_DONE] := by
  intro m
  induction m with
  | zero =>
    intro f hf
    simp [work_run, work_step, hs, show MAX ≤ f + 1 by omega]
  | succ m ih =>
    intro f hf
    rw [List.replicate_succ, work_run]
    simp only [work_step, Bool.not_true, if_neg, hs, if_false,
               Bool.false_eq_true, ite_false, ne_eq, not_false_iff, ite_true,
               ge_iff_le, show ¬ MAX ≤ f + 1 by omega]
    rw [ih (f + 1) (by omega), List.replicate_succ]
    rfl

/-- C2 counterexample: with threshold 3 and three consecutive failing
calls from a zero counter, the third failing call itself returns
`WORK_DONE`; the claim instead says all three below-or-at-threshold
failing calls report the requested item count (16) and only a fourth
call would signal termination. -/
theorem C2_counterexample :
    (work_run 3 16 ⟨true, 0⟩ [1, 1, 1]).fst = [16, 16, WORK_DONE] ∧
    WORK_DONE ≠ (16 : Int) := by
  exact ⟨rfl, by decide⟩

/-- C2 amended: a failing transfer increments the consecutive-failure
counter and a successful one resets it to zero; a failing call whose
incremented counter is still below `MAX_CONSECUTIVE_FAILURES` returns
the requested item count, while the call on which the counter reaches
the threshold itself returns `WORK_DONE`; hence starting from a zero
counter, `MAX` consecutive failing calls return the item count
`MAX - 1` times followed by `WORK_DONE`. -/
theorem C2_failure_policy (MAX : Nat) (N : Int) (s : Int) (f : Nat)
    (hM : 1 ≤ MAX) (hs : s ≠ 0) :
    work_step MAX ⟨true, f⟩ N s =
      (if MAX ≤ f + 1 then (WORK_DONE, ⟨true, f + 1⟩)
       else (N, ⟨true, f + 1⟩)) ∧
    work_step MAX ⟨true, f⟩ N 0 = (N, ⟨true, 0⟩) ∧
    (work_run MAX N ⟨true, 0⟩ (List.replicate MAX s)).fst =
      List.replicate (MAX - 1) N ++ [WORK_DONE] := by
  refine ⟨?_, ?_, ?_⟩
  · simp [work_step, hs, ge_iff_le]
  · simp [work_step]
  · have haux := work_run_consecutive_failures MAX N s hs (MAX - 1) 0 (by omega)
    rw [show MAX - 1 + 1 = MAX by omega] at haux
    exact haux

/-- Witness for C2 amended at threshold 3, item count 16, failing
status 7, counter 1. -/
theorem C2_failure_policy_witness :
    work_step 3 ⟨true, 1⟩ 16 7 =
      (if 3 ≤ 1 + 1 then (WORK_DONE, ⟨true, 1 + 1⟩)
       else ((16 : Int), ⟨true, 1 + 1⟩)) ∧
    work_step 3 ⟨true, 1⟩ 16 0 = ((16 : Int), ⟨true, 0⟩) ∧
    (work_run 3 16 ⟨true, 0⟩ (List.replicate 3 7)).fst =
      List.replicate (3 - 1) 16 ++ [WORK_DONE] :=
  C2_failure_policy 3 16 7 1 (by decide) (by decide)

/-- C8: with 2 input channels the buffer handed to the fixed-point
converter interleaves one complex sample from each channel per time
step: `ch0[0], ch1[0], ch0[1], ch1[1], …`. -/
theorem C8_interleaving {α : Type} (M : Nat) (inp : Nat → Nat → α) :
    prepareBuffer 2 (2 * M) inp =
      (List.range M).flatMap fun i => [inp 0 i, inp 1 i] := by
  have h2 : 2 * M / 2 = M := by omega
  have hr : List.range 2 = [0, 1] := rfl
  simp [prepareBuffer, interleave, h2, hr]

/-! ## Claims about `start`/`stop` -/

/-- Projection of `in_burst` out of a `start`/`stop` result (the object
state at normal return or at the throw point). -/
def resultInBurst : Except (Int × SinkState) (Bool × SinkState) → Bool
  | Except.ok (_, st) => st.in_burst
  | Except.error (_, st) => st.in_burst

/-- C7 counterexample: `start()` does not leave `in_burst` unchanged —
called on a state with `in_burst = true` (e.g. a sink stopped mid-burst
and restarted) it resets `in_burst` to `false`: the assignment
`_in_burst = false;` is the first thing `start()` does. -/
theorem C7_counterexample :
    start 0 [] ⟨true, false, false⟩ =
      Except.ok (true, ⟨false, true, true⟩) ∧
    (⟨true, false, false⟩ : SinkState).in_burst ≠
      (⟨false, true, true⟩ : SinkState).in_burst := by
  exact ⟨rfl, by decide⟩

/-- C7 amended: `stop()` leaves `in_burst` unchanged on every path, but
`start()` always sets it to `false` (whether it returns normally or
throws); apart from `start()`, `in_burst` transitions only inside
`transmit_with_tags`. -/
theorem C7_in_burst_transitions (cs : Int) (es : List Int)
    (st : SinkState) :
    resultInBurst (stop es st) = st.in_burst ∧
    resultInBurst (start cs es st) = false := by
  constructor
  · rw [stop]
    split
    · rfl
    · cases he : enableModules es <;> simp [resultInBurst]
  · rw [start]
    split
    · rfl
    · cases he : enableModules es <;> simp [resultInBurst]

/-- C9: `stop()` is idempotent — a successful `stop()` always returns
`true` and leaves a state on which a second `stop()` (with any hardware
oracle) is a no-op returning `true`; on an already-stopped instance the
first call already changes nothing. -/
theorem C9_stop_idempotent (es es2 : List Int) (st st1 : SinkState)
    (b : Bool) (h : stop es st = Except.ok (b, st1)) :
    b = true ∧ stop es2 st1 = Except.ok (true, st1) ∧
    (st.running = false → st1 = st) := by
  rw [stop] at h
  by_cases hr : st.running
  · simp only [hr, Bool.not_true, Bool.false_eq_true, if_false] at h
    cases he : enableModules es with
    | error e => rw [he] at h; exact absurd h (by simp)
    | ok u =>
      rw [he] at h
      simp only [Except.ok.injEq, Prod.mk.injEq] at h
      obtain ⟨hb, hst⟩ := h
      refine ⟨hb.symm, ?_, fun hc => absurd hr (by simp [hc])⟩
      rw [stop, ← hst]
      rfl
  · simp only [Bool.not_eq_true] at hr
    simp only [hr, Bool.not_false, if_true] at h
    simp only [Except.ok.injEq, Prod.mk.injEq] at h
    obtain ⟨hb, hst⟩ := h
    subst hst
    exact ⟨hb.symm, by rw [stop]; simp [hr], fun _ => rfl⟩

/-- Witness for C9: stopping a running sink succeeds and a second stop
on the resulting state is a no-op returning success. -/
theorem C9_stop_idempotent_witness :
    (true : Bool) = true ∧
    stop [] ⟨false, false, false⟩ =
      Except.ok (true, (⟨false, false, false⟩ : SinkState)) ∧
    ((⟨false, true, true⟩ : SinkState).running = false →
      (⟨false, false, false⟩ : SinkState) = ⟨false, true, true⟩) :=
  C9_stop_idempotent [] [] ⟨false, true, true⟩ ⟨false, false, false⟩ true rfl

end BladerfSink
